import Mathlib

/-!
Verification of the orchestration core of the content-link extraction app
(`app.py`), as a shallow embedding in Lean 4.

The embedded functions keep the Python names where Lean allows it:
`spotify_url_to_id`, `sanitize_filename`, `get_access_token`,
`make_spotify_request`, `get_spotify_code`, `generate_etag` and the
`download` route's response construction.  Machine-level collaborators
(HTTP, the MD5 digest, the wall clock, the process-wide cache backend) are
passed in explicitly as parameters or state.
-/

set_option autoImplicit false

/-! ### Identifier Resolver (`spotify_url_to_id`, app.py lines 94-101) -/

/-- Python `needle in hay` substring test: `hasPrefixL n h` is `h.startswith(n)`
on character lists. -/
def hasPrefixL : List Char → List Char → Bool
  | [], _ => true
  | _ :: _, [] => false
  | n :: ns, h :: hs => n == h && hasPrefixL ns hs

/-- Substring occurrence anywhere in the haystack (Python `in`). -/
def containsSub (needle : List Char) : List Char → Bool
  | [] => hasPrefixL needle []
  | h :: hs => hasPrefixL needle (h :: hs) || containsSub needle hs

/-- Python `needle in hay` on strings. -/
def pyIn (needle hay : String) : Bool :=
  containsSub needle.data hay.data

/-- Python `s.split(sep)` for a single-character separator: splits at every
occurrence, `"".split(sep) == [""]`. -/
def splitOnChar (sep : Char) : List Char → List (List Char)
  | [] => [[]]
  | c :: cs =>
    if c == sep then [] :: splitOnChar sep cs
    else
      match splitOnChar sep cs with
      | [] => [[c]]
      | x :: xs => (c :: x) :: xs

/-- Python `url.split('/')[-1]`: the final slash-separated segment. -/
def pyLastSegment (url : String) : String :=
  ⟨(splitOnChar '/' url.data).getLastD []⟩

/-- Python `s.split('?')[0]`: everything before the first question mark. -/
def pyStripQuery (s : String) : String :=
  ⟨(splitOnChar '?' s.data).headD []⟩

/-- app.py lines 94-101: classify a link by substring membership of the tokens
"track", "album", "playlist" (checked in that order); the identifier is the
final path segment with the query string stripped.  Returns `(id, kind)` as the
Python function does, or `none` for the Python `(None, None)`. -/
def spotify_url_to_id (url : String) : Option (String × String) :=
  if pyIn "track" url then some (pyStripQuery (pyLastSegment url), "track")
  else if pyIn "album" url then some (pyStripQuery (pyLastSegment url), "album")
  else if pyIn "playlist" url then some (pyStripQuery (pyLastSegment url), "playlist")
  else none

/-! ### Filename sanitization (`sanitize_filename`, app.py lines 81-82) -/

/-- The character class of the regex `[<>:"/\\|?*]` in `sanitize_filename`. -/
def bannedChar (c : Char) : Bool :=
  c == '<' || c == '>' || c == ':' || c == '\"' || c == '/' || c == '\\' ||
    c == '|' || c == '?' || c == '*'

/-- The ASCII whitespace stripped by Python `str.strip()`. -/
def pySpace (c : Char) : Bool :=
  c == ' ' || c == '\t' || c == '\n' || c == '\r' || c == '\x0b' || c == '\x0c'

/-- Python `str.strip()` on character lists: drop whitespace from both ends. -/
def pyStrip (l : List Char) : List Char :=
  List.rdropWhile pySpace (List.dropWhile pySpace l)

/-- app.py lines 81-82: `re.sub` deletes every banned character, then
`.strip()` trims surrounding whitespace. -/
def sanitize_filename (s : String) : String :=
  ⟨pyStrip (s.data.filter fun c => !bannedChar c)⟩

/-! ### Token Manager (`get_access_token`, app.py lines 46-69) -/

/-- The upstream credential-exchange response: HTTP status, the token carried
in the JSON body, and the TTL the upstream reports.  The source never reads
`expires_in`. -/
structure AuthResponse where
  status : Nat
  access_token : String
  expires_in : Nat
deriving DecidableEq

/-- The process-wide single-slot cache (flask-caching `SimpleCache`), holding
the token value and its absolute expiry time. -/
structure TMState where
  cache : Option (String × Nat)
deriving DecidableEq

/-- `cache.get(...)` of `SimpleCache`: the stored value while `now` is strictly
before the expiry time, otherwise a miss. -/
def cache_get (st : TMState) (now : Nat) : Option String :=
  match st.cache with
  | none => none
  | some (tok, expires) => if now < expires then some tok else none

/-- Errors of the token fetch: the explicit 401 check and
`raise_for_status()`. -/
inductive TokenError where
  | invalidCredentials
  | httpError (code : Nat)
deriving DecidableEq

/-- app.py lines 52-69, the cache-miss path: POST to the auth endpoint; a 401
raises "Invalid Spotify API credentials"; any other 4xx/5xx raises via
`raise_for_status()`; otherwise the token is cached with `timeout=60*60`
(3600 seconds, ignoring `expires_in`) and returned.  The final component
counts network calls. -/
def fetch_token (upstream : AuthResponse) (now : Nat) (st : TMState) :
    Except TokenError String × TMState × Nat :=
  if upstream.status == 401 then (.error .invalidCredentials, st, 1)
  else if 400 ≤ upstream.status then (.error (.httpError upstream.status), st, 1)
  else (.ok upstream.access_token,
        ⟨some (upstream.access_token, now + 3600)⟩, 1)

/-- app.py lines 46-69: consult the cache first; `if cached_token:` is Python
truthiness, so both a miss and a cached empty string fall through to the
network fetch. -/
def get_access_token (upstream : AuthResponse) (now : Nat) (st : TMState) :
    Except TokenError String × TMState × Nat :=
  match cache_get st now with
  | some cached_token =>
      if cached_token = "" then fetch_token upstream now st
      else (.ok cached_token, st, 0)
  | none => fetch_token upstream now st

/-! ### Retry wrapper (`make_spotify_request`, app.py lines 71-79) -/

/-- The tenacity loop `retry(wait=wait_fixed(w), ...)`: `remaining` further
attempts are allowed after the current attempt `k`.  Returns the final result,
the number of calls made, and the total time slept between attempts.  The
wrapped call is the oracle `attempt number → result`; any failure triggers a
retry, and the last failure propagates (tenacity's `RetryError` carries it). -/
def retryAux {α : Type} (oracle : Nat → Except Nat α) (wait : Nat) :
    Nat → Nat → Except Nat α × Nat × Nat
  | k, 0 => (oracle k, 1, 0)
  | k, n + 1 =>
    match oracle k with
    | .ok a => (.ok a, 1, 0)
    | .error _ =>
      match retryAux oracle wait (k + 1) n with
      | (r, calls, slept) => (r, calls + 1, slept + wait)

/-- app.py lines 71-79: `@retry(wait=wait_fixed(2), stop=stop_after_attempt(3))`
around the upstream GET — at most 3 attempts, 2 time-units between attempts. -/
def make_spotify_request {α : Type} (oracle : Nat → Except Nat α) :
    Except Nat α × Nat × Nat :=
  retryAux oracle 2 1 2

/-! ### Metadata field extraction (`get_spotify_info`, app.py lines 110-141) -/

/-- Python exceptions that the field extraction can raise. -/
inductive PyError where
  | indexError
  | valueError
deriving DecidableEq

/-- Python `l[0]`: `IndexError` on an empty list. -/
def pyIndex0 {α : Type} (l : List α) : Except PyError α :=
  match l with
  | [] => .error .indexError
  | x :: _ => .ok x

/-- The fields of the upstream metadata JSON that app.py lines 127-138 read:
`name`, the artist names, the top-level `images` url list, the nested
`album.images` url list (tracks only), and `owner.display_name` (playlists
only). -/
structure SpotifyJson where
  name : String
  artists : List String
  images : List String
  album_images : List String
  owner_display_name : String
deriving DecidableEq

/-- app.py lines 127-138: kind-specific extraction of
`(title, artist, album_art_url)`.  Index-zero access on the image lists is
exactly Python `[...][0]` — unguarded. -/
def get_spotify_info_fields (content_type : String) (info : SpotifyJson) :
    Except PyError (String × String × String) :=
  if content_type = "track" then
    match pyIndex0 info.album_images with
    | .error e => .error e
    | .ok img => .ok (info.name, String.intercalate ", " info.artists, img)
  else if content_type = "album" then
    match pyIndex0 info.images with
    | .error e => .error e
    | .ok img => .ok (info.name, String.intercalate ", " info.artists, img)
  else if content_type = "playlist" then
    match pyIndex0 info.images with
    | .error e => .error e
    | .ok img => .ok (info.name, info.owner_display_name, img)
  else .error .valueError

/-! ### Scannable code (`get_spotify_code`, app.py lines 103-108 and 176) -/

/-- An HTTP GET response: status code and raw body bytes. -/
structure HttpResponse where
  status : Nat
  content : List Nat
deriving DecidableEq

/-- app.py line 104: the fixed scannable-code endpoint templated with the
URI. -/
def spotify_code_endpoint (uri : String) : String :=
  "https://scannables.scdn.co/uri/plain/svg/ffffff/black/640/" ++ uri

/-- app.py lines 103-108: GET the templated endpoint, `raise_for_status()`
(4xx/5xx raise), and return the raw response bytes. -/
def get_spotify_code (http : String → HttpResponse) (uri : String) :
    Except Nat (List Nat) :=
  let response := http (spotify_code_endpoint uri)
  if 400 ≤ response.status then .error response.status
  else .ok response.content

/-- app.py line 176: the canonical URI handed to `get_spotify_code`,
`f'spotify:{content_type}:{content_id}'`. -/
def canonical_uri (content_type content_id : String) : String :=
  "spotify:" ++ content_type ++ ":" ++ content_id

/-! ### Download response (`generate_etag` and `download`, app.py lines
143-144 and 219-231) -/

/-- app.py lines 143-144: the ETag is the digest of the file content; the
digest itself (`hashlib.md5(...).hexdigest()`) is an external primitive passed
in as `md5hex`. -/
def generate_etag (md5hex : List Nat → String) (file_content : List Nat) :
    String :=
  md5hex file_content

/-- The parts of the Flask `Response` that app.py lines 221-228 set. -/
structure DlResponse where
  status : Nat
  body : List Nat
  mimetype : String
  content_disposition : String
  cache_control : String
  etag : String
deriving DecidableEq

/-- An apostrophe, used twice inside the `Content-Disposition` value. -/
def apos : String :=
  ⟨[Char.ofNat 39]⟩

/-- app.py lines 219-231, after the artifact bytes exist: build the full
response (body, mimetype, Content-Disposition, Cache-Control, ETag from
`generate_etag`), then flip the status code to 304 when the caller's
`If-None-Match` equals the ETag. -/
def download_response (md5hex : List Nat → String) (file_content : List Nat)
    (mimetype : String) (file_name_encoded : String)
    (if_none_match : Option String) : DlResponse :=
  let response : DlResponse :=
    { status := 200
      body := file_content
      mimetype := mimetype
      content_disposition :=
        "attachment; filename*=UTF-8" ++ apos ++ apos ++ file_name_encoded
      cache_control := "public, max-age=86400"
      etag := generate_etag md5hex file_content }
  if if_none_match = some response.etag then { response with status := 304 }
  else response

/-! ### Helper lemmas -/

theorem dropWhile_eq_self_of_head (p : Char → Bool) (c : Char) (cs : List Char)
    (h : p c = false) : List.dropWhile p (c :: cs) = c :: cs := by
  simp [List.dropWhile_cons, h]

theorem head_false_of_dropWhile_eq_self (p : Char → Bool) (c : Char)
    (cs : List Char) (h : List.dropWhile p (c :: cs) = c :: cs) : p c = false := by
  cases hpc : p c with
  | false => rfl
  | true =>
    rw [List.dropWhile_cons, if_pos hpc] at h
    have hlen := congrArg List.length h
    have hle : (List.dropWhile p cs).length ≤ cs.length :=
      (List.dropWhile_suffix p).sublist.length_le
    simp at hlen
    omega

theorem pyStrip_head_false (l : List Char) (c : Char) (cs : List Char)
    (h : pyStrip l = c :: cs) : pySpace c = false := by
  obtain ⟨t, ht⟩ := List.rdropWhile_prefix pySpace (List.dropWhile pySpace l)
  have hid := List.dropWhile_idempotent pySpace l
  rw [← ht] at hid
  rw [show List.rdropWhile pySpace (List.dropWhile pySpace l) = pyStrip l from rfl,
    h] at hid
  exact head_false_of_dropWhile_eq_self pySpace c (cs ++ t) (by simpa using hid)

theorem pyStrip_getLast?_false (l : List Char) (d : Char)
    (h : (pyStrip l).getLast? = some d) : pySpace d = false := by
  have hne : pyStrip l ≠ [] := by
    intro hnil
    rw [hnil] at h
    simp at h
  have hsome := List.getLast?_eq_getLast (pyStrip l) hne
  rw [h] at hsome
  have hd : d = (pyStrip l).getLast hne := Option.some.inj hsome
  have hlast : ¬ pySpace ((List.rdropWhile pySpace
      (List.dropWhile pySpace l)).getLast hne) :=
    List.rdropWhile_last_not pySpace (List.dropWhile pySpace l) hne
  rw [hd]
  simpa using hlast

theorem pyStrip_idempotent (l : List Char) : pyStrip (pyStrip l) = pyStrip l := by
  have h1 : List.dropWhile pySpace (pyStrip l) = pyStrip l := by
    cases hm : pyStrip l with
    | nil => simp [List.dropWhile]
    | cons c cs =>
      exact dropWhile_eq_self_of_head pySpace c cs (pyStrip_head_false l c cs hm)
  show List.rdropWhile pySpace (List.dropWhile pySpace (pyStrip l)) = pyStrip l
  rw [h1]
  exact List.rdropWhile_idempotent pySpace (List.dropWhile pySpace l)

theorem pyStrip_subset (l : List Char) : pyStrip l ⊆ l := by
  have h1 : List.Sublist (pyStrip l) (List.dropWhile pySpace l) :=
    List.IsPrefix.sublist ( List.rdropWhile_prefix pySpace (List.dropWhile pySpace l))
  have h2 : List.Sublist (List.dropWhile pySpace l) l :=
    (List.dropWhile_suffix pySpace).sublist
  exact (h1.trans h2).subset

theorem fetch_token_ok (r : AuthResponse) (t1 : Nat) (st : TMState) (tok : String)
    (hok : (fetch_token r t1 st).1 = .ok tok) :
    fetch_token r t1 st = (.ok tok, ⟨some (tok, t1 + 3600)⟩, 1) := by
  by_cases h401 : r.status == 401
  · simp [fetch_token, h401] at hok
  · by_cases h400 : 400 ≤ r.status
    · simp [fetch_token, h401, h400] at hok
    · simp [fetch_token, h401, h400] at hok ⊢
      simp [hok]

theorem get_access_token_fetches (r : AuthResponse) (t1 : Nat) (st : TMState)
    (hfetch : (get_access_token r t1 st).2.2 = 1) :
    get_access_token r t1 st = fetch_token r t1 st := by
  cases hcg : cache_get st t1 with
  | none => simp [get_access_token, hcg]
  | some c =>
    by_cases hc : c = ""
    · simp [get_access_token, hcg, hc]
    · simp [get_access_token, hcg, hc] at hfetch

/-! ### Claim C1 -/

/-- C1 (amended): after a call that actually fetched (one network call) and
succeeded with a non-empty token, the cache slot holds that token with absolute
expiry exactly 3600 seconds later — whatever TTL `r.expires_in` reported; any
call strictly within those 3600 seconds returns the identical token with zero
network calls and an unchanged state, whatever the upstream would answer; and
from 3600 seconds onward the cached entry is expired.  The non-emptiness
hypothesis is forced: `if cached_token:` treats an empty cached string as a
miss. -/
theorem claim_C1_token_cache (r r2 : AuthResponse) (st : TMState)
    (t1 t2 t3 : Nat) (tok : String)
    (hfetch : (get_access_token r t1 st).2.2 = 1)
    (hok : (get_access_token r t1 st).1 = .ok tok)
    (hne : tok ≠ "")
    (ht2 : t2 < t1 + 3600)
    (ht3 : t1 + 3600 ≤ t3) :
    (get_access_token r t1 st).2.1.cache = some (tok, t1 + 3600) ∧
    get_access_token r2 t2 (get_access_token r t1 st).2.1
      = (.ok tok, (get_access_token r t1 st).2.1, 0) ∧
    cache_get (get_access_token r t1 st).2.1 t3 = none := by
  have hcall := get_access_token_fetches r t1 st hfetch
  rw [hcall] at hok
  have hfeq := fetch_token_ok r t1 st tok hok
  rw [hcall, hfeq]
  refine ⟨rfl, ?_, ?_⟩
  · simp [get_access_token, cache_get, ht2, hne]
  · simp only [cache_get]
    rw [if_neg (by omega)]

/-- C1 witness: a fetch at time 0 whose upstream reports a TTL of 120 seconds
is nevertheless cached until 3600; at time 1800 the token is served from the
cache with zero network calls even though the upstream would answer 500; at
time 3600 the entry is expired. -/
theorem claim_C1_witness :
    (get_access_token ⟨200, "tok", 120⟩ 0 ⟨none⟩).2.1.cache = some ("tok", 0 + 3600) ∧
    get_access_token ⟨500, "x", 9⟩ 1800 (get_access_token ⟨200, "tok", 120⟩ 0 ⟨none⟩).2.1
      = (.ok "tok", (get_access_token ⟨200, "tok", 120⟩ 0 ⟨none⟩).2.1, 0) ∧
    cache_get (get_access_token ⟨200, "tok", 120⟩ 0 ⟨none⟩).2.1 3600 = none :=
  claim_C1_token_cache ⟨200, "tok", 120⟩ ⟨500, "x", 9⟩ ⟨none⟩ 0 1800 3600 "tok"
    rfl rfl (by decide) (by decide) (by decide)

/-- C1 counterexample: as stated the claim is false.  A successful fetch whose
JSON carries an empty-string token is cached, but `if cached_token:` is falsy
on it, so a call 10 seconds later performs a network call again instead of
returning the cached value with zero network calls. -/
theorem claim_C1_counterexample :
    (get_access_token ⟨200, "", 300⟩ 0 ⟨none⟩).1 = .ok "" ∧
    (get_access_token ⟨200, "", 300⟩ 0 ⟨none⟩).2.2 = 1 ∧
    (get_access_token ⟨200, "", 300⟩ 10
        (get_access_token ⟨200, "", 300⟩ 0 ⟨none⟩).2.1).2.2 = 1 :=
  ⟨rfl, rfl, rfl⟩

/-! ### Claim C2 -/

/-- C2: a wrapped call failing on attempts 1 and 2 and succeeding on attempt 3
returns the success after exactly 3 calls with 2 time-units slept between
consecutive attempts (4 in total); a call failing all 3 attempts makes exactly
3 calls — no fourth — and propagates the last failure, whatever the error
values were (no per-error-code discrimination). -/
theorem claim_C2_retry (o1 o2 : Nat → Except Nat Nat) (a e1 e2 f1 f2 f3 : Nat)
    (h1 : o1 1 = .error e1) (h2 : o1 2 = .error e2) (h3 : o1 3 = .ok a)
    (g1 : o2 1 = .error f1) (g2 : o2 2 = .error f2) (g3 : o2 3 = .error f3) :
    make_spotify_request o1 = (.ok a, 3, 4) ∧
    make_spotify_request o2 = (.error f3, 3, 4) := by
  constructor
  · simp [make_spotify_request, retryAux, h1, h2, h3]
  · simp [make_spotify_request, retryAux, g1, g2, g3]

/-- C2 witness: the retry law evaluated on two concrete oracles, one that
recovers on the third attempt and one that always fails. -/
theorem claim_C2_witness :
    make_spotify_request (fun n => if n < 3 then Except.error n else Except.ok 42)
      = (.ok 42, 3, 4) ∧
    make_spotify_request (fun n => (Except.error n : Except Nat Nat))
      = (.error 3, 3, 4) :=
  claim_C2_retry (fun n => if n < 3 then Except.error n else Except.ok 42)
    (fun n => Except.error n) 42 1 2 1 2 3 rfl rfl rfl rfl rfl rfl

/-! ### Claims C3, C4, C5 -/

/-- C3 counterexample: the claim says a link whose final path segment is empty
resolves to `None`, but the source has no emptiness guard: a link containing
the token "track" with an empty final segment resolves to a `ContentRef` with
an empty identifier. -/
theorem claim_C3_counterexample :
    spotify_url_to_id "https://x/track/" = some ("", "track") ∧
    spotify_url_to_id "https://x/track/" ≠ none := by
  constructor
  · decide
  · decide

/-- C3 (amended): a link in which none of the tokens "track", "album",
"playlist" occurs resolves to `none` (in particular
`resolve "https://x/unknown/123" = none`); the empty-final-segment case is
NOT rejected — it yields a reference with an empty identifier. -/
theorem claim_C3_amended (url : String)
    (h1 : pyIn "track" url = false)
    (h2 : pyIn "album" url = false)
    (h3 : pyIn "playlist" url = false) :
    spotify_url_to_id url = none ∧
    spotify_url_to_id "https://x/unknown/123" = none ∧
    spotify_url_to_id "https://x/track/" = some ("", "track") := by
  refine ⟨?_, by decide, by decide⟩
  simp [spotify_url_to_id, h1, h2, h3]

/-- C3 witness: instantiates the amended claim at the spec's example link. -/
theorem claim_C3_witness :
    spotify_url_to_id "https://x/unknown/123" = none ∧
    spotify_url_to_id "https://x/track/" = some ("", "track") :=
  (claim_C3_amended "https://x/unknown/123" (by decide) (by decide) (by decide)).2

/-- C4: classification is by substring membership with "track" checked before
"album" before "playlist"; any link containing "track" anywhere (hence in
particular before any other token, and regardless of other substrings present)
is classified as a track. -/
theorem claim_C4_priority (u1 u2 u3 : String)
    (h1 : pyIn "track" u1 = true)
    (h2a : pyIn "track" u2 = false) (h2b : pyIn "album" u2 = true)
    (h3a : pyIn "track" u3 = false) (h3b : pyIn "album" u3 = false)
    (h3c : pyIn "playlist" u3 = true) :
    spotify_url_to_id u1 = some (pyStripQuery (pyLastSegment u1), "track") ∧
    spotify_url_to_id u2 = some (pyStripQuery (pyLastSegment u2), "album") ∧
    spotify_url_to_id u3 = some (pyStripQuery (pyLastSegment u3), "playlist") := by
  refine ⟨?_, ?_, ?_⟩
  · simp [spotify_url_to_id, h1]
  · simp [spotify_url_to_id, h2a, h2b]
  · simp [spotify_url_to_id, h3a, h3b, h3c]

/-- C4 witness: the first link contains "album" textually before "track" and is
still classified as a track. -/
theorem claim_C4_witness :
    spotify_url_to_id "https://x/album/track9" = some ("track9", "track") ∧
    spotify_url_to_id "https://x/album/a1" = some ("a1", "album") ∧
    spotify_url_to_id "https://x/playlist/p2" = some ("p2", "playlist") :=
  claim_C4_priority "https://x/album/track9" "https://x/album/a1"
    "https://x/playlist/p2" (by decide) (by decide) (by decide) (by decide)
    (by decide) (by decide)

/-- C5: whenever a link resolves, the extracted identifier is the final
slash-separated segment with the query string stripped; the spec's example
link resolves to a playlist with identifier "37i9dQZF1". -/
theorem claim_C5_identifier (url id kind : String)
    (h : spotify_url_to_id url = some (id, kind)) :
    id = pyStripQuery (pyLastSegment url) ∧
    spotify_url_to_id "https://x/playlist/37i9dQZF1?si=abc"
      = some ("37i9dQZF1", "playlist") := by
  refine ⟨?_, by decide⟩
  unfold spotify_url_to_id at h
  split at h
  · exact congrArg Prod.fst (Option.some.inj h).symm
  · split at h
    · exact congrArg Prod.fst (Option.some.inj h).symm
    · split at h
      · exact congrArg Prod.fst (Option.some.inj h).symm
      · exact absurd h (by simp)

/-- C5 witness: instantiates the identifier-extraction law at the spec's
example link. -/
theorem claim_C5_witness :
    "37i9dQZF1" = pyStripQuery (pyLastSegment "https://x/playlist/37i9dQZF1?si=abc") ∧
    spotify_url_to_id "https://x/playlist/37i9dQZF1?si=abc"
      = some ("37i9dQZF1", "playlist") :=
  claim_C5_identifier "https://x/playlist/37i9dQZF1?si=abc" "37i9dQZF1" "playlist"
    (by decide)

/-! ### Claim C6 -/

/-- C6: the index-zero access on the images list is NOT guarded.  For each
content kind, an upstream response with the expected list empty makes the
extraction raise Python's `IndexError` — an uncaught crash (the `/download`
route catches only `ValueError` and `RequestException`) — and the source
defines no `MalformedResponseError` at all. -/
theorem claim_C6_unguarded_images :
    get_spotify_info_fields "playlist" ⟨"Mix", [], [], [], "owner"⟩
      = .error PyError.indexError ∧
    get_spotify_info_fields "album" ⟨"Alb", ["A"], [], [], ""⟩
      = .error PyError.indexError ∧
    get_spotify_info_fields "track" ⟨"Tr", ["A"], [], [], ""⟩
      = .error PyError.indexError :=
  ⟨rfl, rfl, rfl⟩

/-! ### Claims C7 and C10 -/

/-- C7: every download response carries `Cache-Control: public, max-age=86400`
and an ETag equal to the digest of the artifact bytes; the status is 304
exactly when the caller's `If-None-Match` equals that digest and 200 otherwise;
and the body is always the full artifact bytes. -/
theorem claim_C7_annotate (md5hex : List Nat → String) (content : List Nat)
    (mt fn : String) (inm : Option String) :
    (download_response md5hex content mt fn inm).cache_control
      = "public, max-age=86400" ∧
    (download_response md5hex content mt fn inm).etag
      = generate_etag md5hex content ∧
    (download_response md5hex content mt fn inm).status
      = (if inm = some (generate_etag md5hex content) then 304 else 200) ∧
    (download_response md5hex content mt fn inm).body = content := by
  unfold download_response
  by_cases h : inm = some (generate_etag md5hex content)
  · simp [h]
  · simp [h]

/-- C10: on an `If-None-Match` hit, the response equals the unconditional
response with only the status code changed to 304 — the body is still the full
regenerated artifact bytes, with its media type and Content-Disposition
attachment header. -/
theorem claim_C10_304_body (md5hex : List Nat → String) (content : List Nat)
    (mt fn : String) :
    download_response md5hex content mt fn (some (generate_etag md5hex content))
      = { download_response md5hex content mt fn none with status := 304 } ∧
    (download_response md5hex content mt fn (some (generate_etag md5hex content))).body
      = content ∧
    (download_response md5hex content mt fn (some (generate_etag md5hex content))).mimetype
      = mt ∧
    (download_response md5hex content mt fn
        (some (generate_etag md5hex content))).content_disposition
      = "attachment; filename*=UTF-8" ++ apos ++ apos ++ fn ∧
    (download_response md5hex content mt fn none).status = 200 := by
  unfold download_response
  simp

/-! ### Claim C9 -/

/-- C9: the canonical URI is the exact three-colon-separated string
`spotify:<kind>:<id>` with the fixed scheme literal `spotify`; the GET goes to
the fixed scannable-code endpoint — parameters `ffffff`, `black`, `640` —
templated with that URI; and a response below status 400 yields exactly the
raw response bytes. -/
theorem claim_C9_scan_code (http : String → HttpResponse) (k i : String) :
    canonical_uri k i = "spotify:" ++ k ++ ":" ++ i ∧
    spotify_code_endpoint (canonical_uri k i)
      = "https://scannables.scdn.co/uri/plain/svg/ffffff/black/640/"
          ++ ("spotify:" ++ k ++ ":" ++ i) ∧
    get_spotify_code http (canonical_uri k i)
      = (if 400 ≤ (http (spotify_code_endpoint (canonical_uri k i))).status
         then .error (http (spotify_code_endpoint (canonical_uri k i))).status
         else .ok (http (spotify_code_endpoint (canonical_uri k i))).content) :=
  ⟨rfl, rfl, rfl⟩

/-! ### Claim C8 -/

/-- C8: sanitization is idempotent, its output never contains one of the nine
banned characters, and the output carries no leading or trailing whitespace. -/
theorem claim_C8_sanitize (s : String) :
    sanitize_filename (sanitize_filename s) = sanitize_filename s ∧
    (∀ c ∈ (sanitize_filename s).data, bannedChar c = false) ∧
    (∀ c, (sanitize_filename s).data.head? = some c → pySpace c = false) ∧
    (∀ c, (sanitize_filename s).data.getLast? = some c → pySpace c = false) := by
  have hmem : ∀ c ∈ (sanitize_filename s).data, (!bannedChar c) = true := by
    intro c hc
    have hcf : c ∈ s.data.filter (fun c => !bannedChar c) := pyStrip_subset _ hc
    exact (List.mem_filter.mp hcf).2
  refine ⟨?_, ?_, ?_, ?_⟩
  · have hf : ((sanitize_filename s).data.filter fun c => !bannedChar c)
        = (sanitize_filename s).data := List.filter_eq_self.mpr hmem
    show (⟨pyStrip ((sanitize_filename s).data.filter fun c => !bannedChar c)⟩ : String)
      = sanitize_filename s
    rw [hf]
    show (⟨pyStrip (pyStrip (s.data.filter fun c => !bannedChar c))⟩ : String)
      = sanitize_filename s
    rw [pyStrip_idempotent]
    rfl
  · intro c hc
    have := hmem c hc
    simpa using this
  · intro c hc
    cases hm : (sanitize_filename s).data with
    | nil => rw [hm] at hc; simp at hc
    | cons a as =>
      rw [hm] at hc
      simp at hc
      exact hc ▸ pyStrip_head_false (s.data.filter fun c => !bannedChar c) a as hm
  · intro c hc
    exact pyStrip_getLast?_false (s.data.filter fun c => !bannedChar c) c hc

/-- C8 witness: the sanitization laws evaluated on the concrete input
`" a<b*c "`, whose sanitized form is `"abc"`. -/
theorem claim_C8_witness :
    sanitize_filename (sanitize_filename " a<b*c ") = sanitize_filename " a<b*c " ∧
    bannedChar 'a' = false ∧ pySpace 'a' = false ∧ pySpace 'c' = false :=
  ⟨(claim_C8_sanitize " a<b*c ").1,
   (claim_C8_sanitize " a<b*c ").2.1 'a' (by decide),
   (claim_C8_sanitize " a<b*c ").2.2.1 'a' (by decide),
   (claim_C8_sanitize " a<b*c ").2.2.2 'c' (by decide)⟩
